import Mathlib

/-!
# Flowstate focus-coaching core: a shallow embedding

This file embeds the signal-fusion, scoring, debounce and fallback logic of
the flowstate-focus application in Lean and proves the specified properties
about it.

* `calculateAverageFocus` — `src/context/SessionContext.tsx`
* `calculateHeadTilt`, `calculateShoulderTilt`, `calculatePosePosture`,
  `tiltToPostureScore`, `processFrame`, `stopCamera` — `src/hooks/usePostureDetection.ts`
* `sessionIsDistracted`, `sessionPostureScore` — `src/pages/Session.tsx`
* `detectedLabels`, `phoneDetected`, `clutterItems`, `deskCluttered` —
  `src/hooks/useYoloDetection.ts`
* `nudgeStep`, `generateNudgeText` — `src/hooks/useNudgeGenerator` in
  `src/hooks/useSimulatedAttention.ts`
* `visionAdjustedPostureScore` — `supabase/functions/analyze-posture/index.ts`

Scores are modelled over ℚ where the source only adds, subtracts, multiplies,
clamps and compares, and over ℝ where the source uses `Math.pow` with a
fractional exponent.
-/

namespace Flowstate

/-! ## Session focus-score averaging (`SessionContext.tsx`) -/

/-- Embedding of `calculateAverageFocus`: each sample is raised to the power
1.5 (`Math.pow(score, 1.5)`), then the harsh scores are averaged; the empty
list yields 0. -/
noncomputable def calculateAverageFocus (scores : List ℝ) : ℝ :=
  if scores = [] then 0
  else
    let harshScores := scores.map (fun score => score ^ (1.5 : ℝ))
    harshScores.sum / (harshScores.length : ℝ)

/-- Plain arithmetic mean of a sample list, used to compare against the
harsh average. -/
noncomputable def unweightedMean (scores : List ℝ) : ℝ :=
  scores.sum / (scores.length : ℝ)

/-- The sample sequence of the harsher-than-linear scenario: nine perfect
samples and one 0.3 sample. -/
noncomputable def focusSampleRun : List ℝ :=
  [1, 1, 1, 1, 1, 1, 1, 1, 1, 0.3]

end Flowstate

namespace Flowstate

/-- C1: for every non-empty sample sequence, `calculateAverageFocus` equals the
mean of `sample ^ 1.5` over the samples, and on nine 1.0 samples plus one 0.3
sample the harsh average lies strictly below the unweighted mean. -/
theorem calculateAverageFocus_harsh_mean (scores : List ℝ) (h : scores ≠ []) :
    calculateAverageFocus scores
        = (scores.map (fun s => s ^ (1.5 : ℝ))).sum / (scores.length : ℝ)
      ∧ calculateAverageFocus focusSampleRun < unweightedMean focusSampleRun := by
  constructor
  · unfold calculateAverageFocus
    rw [if_neg h]
    simp
  · have hlt : (0.3 : ℝ) ^ (1.5 : ℝ) < 0.3 := by
      have h1 : (0.3 : ℝ) ^ (1.5 : ℝ) < (0.3 : ℝ) ^ (1 : ℝ) :=
        Real.rpow_lt_rpow_of_exponent_gt (by norm_num) (by norm_num) (by norm_num)
      simpa [Real.rpow_one] using h1
    have hx : calculateAverageFocus focusSampleRun = (9 + (0.3 : ℝ) ^ (1.5 : ℝ)) / 10 := by
      unfold calculateAverageFocus focusSampleRun
      rw [if_neg (by simp)]
      norm_num [Real.one_rpow]
      ring
    have hy : unweightedMean focusSampleRun = 9.3 / 10 := by
      unfold unweightedMean focusSampleRun
      norm_num
    rw [hx, hy]
    linarith

/-- Witness for `calculateAverageFocus_harsh_mean` at the concrete 10-sample
run. -/
theorem calculateAverageFocus_harsh_mean_witness :
    calculateAverageFocus focusSampleRun
        = (focusSampleRun.map (fun s => s ^ (1.5 : ℝ))).sum / (focusSampleRun.length : ℝ)
      ∧ calculateAverageFocus focusSampleRun < unweightedMean focusSampleRun :=
  calculateAverageFocus_harsh_mean focusSampleRun (by simp [focusSampleRun])

end Flowstate

namespace Flowstate

/-! ## Geometric posture estimator (`usePostureDetection.ts`) -/

/-- Fixed distraction threshold: below this combined score the estimator
reports distraction. -/
def POSTURE_THRESHOLD : ℚ := 0.6

/-- Maximum head tilt in degrees; `calculateHeadTilt` clamps to this. -/
def HEAD_TILT_MAX_DEGREES : ℚ := 30

/-- Maximum shoulder tilt in degrees; `calculateShoulderTilt` clamps to this. -/
def SHOULDER_TILT_MAX_DEGREES : ℚ := 15

/-- One face landmark as consumed by `calculateHeadTilt` (normalized x, y, z
coordinates). -/
structure FaceLandmark where
  x : ℚ
  y : ℚ
  z : ℚ
deriving DecidableEq

/-- One pose landmark as consumed by `calculateShoulderTilt` and
`calculatePosePosture`; `visibility` is optional, as in the MediaPipe output
(`visibility?: number`). -/
structure PoseLandmark where
  x : ℚ
  y : ℚ
  z : ℚ
  visibility : Option ℚ
deriving DecidableEq

/-- Embedding of `calculateHeadTilt`: reads landmarks 1 (nose tip),
10 (forehead), 152 (chin), 33 (left eye), 263 (right eye); returns 0 when any
is absent; otherwise blends vertical tilt, horizontal rotation and eye roll,
converts to degrees and clamps to `HEAD_TILT_MAX_DEGREES`. -/
def calculateHeadTilt (landmarks : List FaceLandmark) : ℚ :=
  match landmarks.get? 1, landmarks.get? 10, landmarks.get? 152,
      landmarks.get? 33, landmarks.get? 263 with
  | some noseTip, some forehead, some chin, some leftEye, some rightEye =>
      let idealNoseY := (forehead.y + chin.y) / 2
      let verticalTilt := |noseTip.y - idealNoseY|
      let eyeMidpointX := (leftEye.x + rightEye.x) / 2
      let horizontalRotation := |noseTip.x - eyeMidpointX|
      let eyeSlope := |leftEye.y - rightEye.y|
      let combinedOffset := verticalTilt * 0.4 + horizontalRotation * 0.3 + eyeSlope * 0.3
      let tiltDegrees := combinedOffset * 180
      min tiltDegrees HEAD_TILT_MAX_DEGREES
  | _, _, _, _, _ => 0

/-- Embedding of `calculateShoulderTilt`: reads landmarks 11 (left shoulder)
and 12 (right shoulder); returns 0 when either is absent or has visibility
at most 0.5 (`(visibility ?? 0) > 0.5` required on both); otherwise converts
the vertical shoulder difference to degrees and clamps to
`SHOULDER_TILT_MAX_DEGREES`. -/
def calculateShoulderTilt (landmarks : List PoseLandmark) : ℚ :=
  match landmarks.get? 11, landmarks.get? 12 with
  | some leftShoulder, some rightShoulder =>
      if leftShoulder.visibility.getD 0 > 0.5 ∧ rightShoulder.visibility.getD 0 > 0.5 then
        min (|leftShoulder.y - rightShoulder.y| * 90) SHOULDER_TILT_MAX_DEGREES
      else 0
  | _, _ => 0

/-- Embedding of `calculatePosePosture`: the whole-pose heuristic. Starts at
1.0 and subtracts penalties for shoulder asymmetry, forward head, horizontal
off-center beyond 0.3, and a nose below 60% of the frame height; clamps to
[0, 1]. Returns 0.5 when nose or a shoulder landmark is absent. -/
def calculatePosePosture (landmarks : List PoseLandmark) : ℚ :=
  match landmarks.get? 0, landmarks.get? 11, landmarks.get? 12 with
  | some nose, some leftShoulder, some rightShoulder =>
      let score0 : ℚ := 1
      let shoulderTilt := |leftShoulder.y - rightShoulder.y|
      let score1 := if shoulderTilt > 0.05 then score0 - shoulderTilt * 2 else score0
      let score2 :=
        match landmarks.get? 7, landmarks.get? 8 with
        | some leftEar, some rightEar =>
            let earMidpointX := (leftEar.x + rightEar.x) / 2
            let shoulderMidpointX := (leftShoulder.x + rightShoulder.x) / 2
            let headForward := |earMidpointX - shoulderMidpointX|
            if headForward > 0.1 then score1 - headForward else score1
        | _, _ => score1
      let noseOffCenter := |nose.x - 0.5|
      let score3 := if noseOffCenter > 0.3 then score2 - (noseOffCenter - 0.3) * 0.5 else score2
      let score4 := if nose.y > 0.6 then score3 - (nose.y - 0.6) * 0.5 else score3
      max 0 (min 1 score4)
  | _, _, _ => 0.5

/-- Embedding of `tiltToPostureScore`: `1 - degrees/max`, clamped to [0, 1]. -/
def tiltToPostureScore (tiltDegrees maxDegrees : ℚ) : ℚ :=
  let normalized := 1 - tiltDegrees / maxDegrees
  max 0 (min 1 normalized)

/-- The face component score computed inside `processFrame` when a face is
detected. -/
def faceFrameScore (faceLandmarks : List FaceLandmark) : ℚ :=
  tiltToPostureScore (calculateHeadTilt faceLandmarks) HEAD_TILT_MAX_DEGREES

/-- The pose component score computed inside `processFrame` when a pose is
detected: 40% shoulder-tilt score, 60% whole-pose posture heuristic. -/
def poseFrameScore (poseLandmarks : List PoseLandmark) : ℚ :=
  tiltToPostureScore (calculateShoulderTilt poseLandmarks) SHOULDER_TILT_MAX_DEGREES * 0.4
    + calculatePosePosture poseLandmarks * 0.6

/-- The per-frame output of `processFrame` that is written into the hook
state. -/
structure FrameScores where
  combinedScore : ℚ
  isDistracted : Bool
  faceDetected : Bool
  poseDetected : Bool
deriving DecidableEq

/-- Embedding of the scoring core of `processFrame`: `some landmarks` stands
for a frame in which the respective detector returned a non-empty landmark
list. Component scores start at 0.5 and are overwritten only when the
component is detected; the combined score weights face 0.4 and pose 0.6 when
both are present, falls back to the single detected component, and defaults
to 0.5 when neither is detected. Distraction is the combined score falling
below `POSTURE_THRESHOLD`. -/
def processFrame (faceResult : Option (List FaceLandmark))
    (poseResult : Option (List PoseLandmark)) : FrameScores :=
  let faceDetected := faceResult.isSome
  let poseDetected := poseResult.isSome
  let faceScore := match faceResult with
    | some landmarks => faceFrameScore landmarks
    | none => 0.5
  let poseScore := match poseResult with
    | some landmarks => poseFrameScore landmarks
    | none => 0.5
  let combinedScore :=
    if faceDetected && poseDetected then faceScore * 0.4 + poseScore * 0.6
    else if faceDetected then faceScore
    else if poseDetected then poseScore
    else 0.5
  { combinedScore := combinedScore
    isDistracted := decide (combinedScore < POSTURE_THRESHOLD)
    faceDetected := faceDetected
    poseDetected := poseDetected }

end Flowstate

namespace Flowstate

/-- C6: the combined frame score is `0.4×faceScore + 0.6×poseScore` when both
face and pose are detected, the single detected component score when only one
is detected, and 0.5 when neither is detected; and the estimator reports
distraction exactly when the combined score is below 0.6. -/
theorem processFrame_combined_score (face : Option (List FaceLandmark))
    (pose : Option (List PoseLandmark)) :
    (processFrame face pose).combinedScore =
      (match face, pose with
       | some fl, some pl => 0.4 * faceFrameScore fl + 0.6 * poseFrameScore pl
       | some fl, none => faceFrameScore fl
       | none, some pl => poseFrameScore pl
       | none, none => 0.5)
    ∧ ((processFrame face pose).isDistracted = true
        ↔ (processFrame face pose).combinedScore < 0.6) := by
  constructor
  · cases face <;> cases pose <;> simp [processFrame]
    ring
  · cases face <;> cases pose <;>
      simp [processFrame, POSTURE_THRESHOLD, decide_eq_true_iff]

/-- C10: a face-landmark list missing a required landmark yields head tilt 0
with component score 1, and a pose-landmark list whose left or right shoulder
is absent or has visibility at most 0.5 yields shoulder tilt 0 with component
score 1 — missing or invisible landmark data scores as perfect posture. -/
theorem missing_landmarks_score_perfect (fls : List FaceLandmark)
    (pls : List PoseLandmark) :
    ((fls.get? 1 = none ∨ fls.get? 10 = none ∨ fls.get? 152 = none ∨
        fls.get? 33 = none ∨ fls.get? 263 = none) →
      calculateHeadTilt fls = 0
        ∧ tiltToPostureScore (calculateHeadTilt fls) HEAD_TILT_MAX_DEGREES = 1)
    ∧ (((∀ l, pls.get? 11 = some l → l.visibility.getD 0 ≤ 0.5) ∨
        (∀ l, pls.get? 12 = some l → l.visibility.getD 0 ≤ 0.5)) →
      calculateShoulderTilt pls = 0
        ∧ tiltToPostureScore (calculateShoulderTilt pls) SHOULDER_TILT_MAX_DEGREES = 1) := by
  constructor
  · intro hface
    have hhead : calculateHeadTilt fls = 0 := by
      unfold calculateHeadTilt
      rcases h1 : fls.get? 1 with _ | n1
      · simp only [h1]
      · rcases h2 : fls.get? 10 with _ | n2
        · simp only [h1, h2]
        · rcases h3 : fls.get? 152 with _ | n3
          · simp only [h1, h2, h3]
          · rcases h4 : fls.get? 33 with _ | n4
            · simp only [h1, h2, h3, h4]
            · rcases h5 : fls.get? 263 with _ | n5
              · simp only [h1, h2, h3, h4, h5]
              · exfalso
                rcases hface with h | h | h | h | h <;> simp_all
    refine ⟨hhead, ?_⟩
    rw [hhead]; norm_num [tiltToPostureScore, HEAD_TILT_MAX_DEGREES]
  · intro hpose
    have hsh : calculateShoulderTilt pls = 0 := by
      rcases h1 : pls.get? 11 with _ | l <;> rcases h2 : pls.get? 12 with _ | r <;>
        simp only [calculateShoulderTilt, h1, h2]
      rw [if_neg]
      rcases hpose with hp | hp
      · exact fun hc => absurd hc.1 (not_lt.mpr (hp l h1))
      · exact fun hc => absurd hc.2 (not_lt.mpr (hp r h2))
    refine ⟨hsh, ?_⟩
    rw [hsh]; norm_num [tiltToPostureScore, SHOULDER_TILT_MAX_DEGREES]

/-- Witness for `missing_landmarks_score_perfect`: the empty landmark lists
miss every required landmark yet score as perfect posture. -/
theorem missing_landmarks_score_perfect_witness :
    (calculateHeadTilt ([] : List FaceLandmark) = 0
        ∧ tiltToPostureScore (calculateHeadTilt ([] : List FaceLandmark))
            HEAD_TILT_MAX_DEGREES = 1)
      ∧ (calculateShoulderTilt ([] : List PoseLandmark) = 0
        ∧ tiltToPostureScore (calculateShoulderTilt ([] : List PoseLandmark))
            SHOULDER_TILT_MAX_DEGREES = 1) :=
  ⟨(missing_landmarks_score_perfect [] []).1 (Or.inl rfl),
    (missing_landmarks_score_perfect [] []).2 (Or.inl (fun l h => by simp at h))⟩

/-! ## Camera teardown (`stopCamera` in `usePostureDetection.ts`) -/

/-- The refs and state fields that `stopCamera` touches. Options model the
nullable refs (`animationFrameRef`, `streamRef`, `videoRef`, `canvasRef`,
`drawingUtilsRef`); the remaining fields are the `PostureState` record. -/
structure PostureHookState where
  animationFrame : Option Nat
  stream : Option Nat
  video : Option Nat
  canvas : Option Nat
  drawingUtils : Option Nat
  isUsingCamera : Bool
  postureScore : ℚ
  isDistracted : Bool
  faceDetected : Bool
  poseDetected : Bool
  isCameraAvailable : Bool
  isLoading : Bool
deriving DecidableEq

/-- Embedding of `stopCamera`: each non-null ref is released and nulled
(guarded by the truthiness checks in the source), `drawingUtilsRef` is nulled
unconditionally, and the posture state is reset to its neutral values. -/
def stopCamera (s : PostureHookState) : PostureHookState :=
  let s1 := if s.animationFrame.isSome then { s with animationFrame := none } else s
  let s2 := if s1.stream.isSome then { s1 with stream := none } else s1
  let s3 := if s2.video.isSome then { s2 with video := none } else s2
  let s4 := if s3.canvas.isSome then { s3 with canvas := none } else s3
  let s5 := { s4 with drawingUtils := none }
  { s5 with
    isUsingCamera := false
    postureScore := 1
    isDistracted := false
    faceDetected := false
    poseDetected := false }

/-- C9: `stopCamera` is idempotent — running it twice leaves exactly the state
of running it once. -/
theorem stopCamera_idempotent (s : PostureHookState) :
    stopCamera (stopCamera s) = stopCamera s := by
  obtain ⟨af, st, v, c, du, uc, ps, d, fd, pd, ca, ld⟩ := s
  cases af <;> cases st <;> cases v <;> cases c <;> rfl

end Flowstate

namespace Flowstate

/-! ## Signal fusion (`Session.tsx`) -/

/-- The two operating modes of the session view. -/
inductive DetectionMode
  | posture
  | environment
deriving DecidableEq

/-- Embedding of the combined distraction logic of `Session.tsx`: posture mode
ORs the estimator flag with phone detection; environment mode ORs phone,
clutter, and more than two distracting items. -/
def sessionIsDistracted (mode : DetectionMode) (mediaPipeDistracted phoneDetected
    deskCluttered : Bool) (distractingItems : List String) : Bool :=
  match mode with
  | .posture => mediaPipeDistracted || phoneDetected
  | .environment => phoneDetected || deskCluttered || decide (distractingItems.length > 2)

/-- Formalisation of the spec sentence for the fused distraction flag, written
from the spec wording: posture mode is `estimatorDistracted OR phoneDetected`,
environment mode is `phoneDetected OR deskCluttered OR distractingItems.size > 2`. -/
def specIsDistracted (mode : DetectionMode) (estimatorDistracted phoneDetected
    deskCluttered : Bool) (distractingItems : List String) : Bool :=
  match mode with
  | .posture => estimatorDistracted || phoneDetected
  | .environment => phoneDetected || deskCluttered || decide (distractingItems.length > 2)

/-- Embedding of the combined posture-score adjustment of `Session.tsx`:
environment mode caps at 0.3 on phone, at 0.4 on clutter, then applies the
distracting-item penalty floored at 0.2; posture mode caps at 0.4 on phone. -/
def sessionPostureScore (mode : DetectionMode) (mediaPipeScore : ℚ)
    (phoneDetected deskCluttered : Bool) (distractingItems : List String) : ℚ :=
  match mode with
  | .environment =>
      let s1 := if phoneDetected then min mediaPipeScore 0.3 else mediaPipeScore
      let s2 := if deskCluttered then min s1 0.4 else s1
      if distractingItems.length > 0 then
        max 0.2 (s2 - (distractingItems.length : ℚ) * 0.15)
      else s2
  | .posture =>
      if phoneDetected then min mediaPipeScore 0.4 else mediaPipeScore

/-- Embedding of `adjustedPostureScore` in
`supabase/functions/analyze-posture/index.ts`: a falsy (zero) raw score is
replaced by 0.7, a detected phone caps at 0.4, looking down with a cluttered
desk caps at 0.5, and the response clamps to [0, 1]. -/
def visionAdjustedPostureScore (rawScore : ℚ) (phoneDetected lookingDown
    deskCluttered : Bool) : ℚ :=
  let base := if rawScore = 0 then 0.7 else rawScore
  let s1 := if phoneDetected then min base 0.4 else base
  let s2 := if lookingDown && deskCluttered then min s1 0.5 else s1
  max 0 (min 1 s2)

/-- C3 counterexample: with estimator score 0, no phone, no clutter, and a
single distracting item, environment mode raises the fused score to 0.2 — the
distracting-item floor is not monotone, contradicting the claim that the
adjustments never raise the score. -/
theorem sessionPostureScore_raises_low_score :
    ¬ sessionPostureScore DetectionMode.environment 0 false false ["book"] ≤ 0 := by
  have h02 : (0.2 : ℚ) ≤ sessionPostureScore DetectionMode.environment 0 false false ["book"] := by
    norm_num [sessionPostureScore]
  intro hle
  linarith

/-- C3 (amended): whenever the estimator score is at least 0.2, every
adjustment combination in both modes only lowers the fused score; the floor of
the distracting-item penalty can raise it only from below 0.2. -/
theorem sessionPostureScore_monotone (mode : DetectionMode) (score : ℚ)
    (phone desk : Bool) (items : List String) (h : 0.2 ≤ score) :
    sessionPostureScore mode score phone desk items ≤ score := by
  have hpen : (0 : ℚ) ≤ (items.length : ℚ) * 0.15 := by positivity
  cases mode
  · cases phone <;> simp [sessionPostureScore, min_le_left]
  · have hs1 : (if phone = true then min score 0.3 else score) ≤ score := by
      cases phone <;> simp [min_le_left]
    have hs2 : (if desk = true then min (if phone = true then min score 0.3 else score) 0.4
        else if phone = true then min score 0.3 else score) ≤ score := by
      cases desk
      · simpa using hs1
      · simpa using le_trans (min_le_left _ _) hs1
    simp only [sessionPostureScore]
    split
    · exact max_le h (by linarith)
    · exact hs2

/-- Witness for `sessionPostureScore_monotone` at score 0.9 with a phone and a
cluttered desk in environment mode. -/
theorem sessionPostureScore_monotone_witness :
    sessionPostureScore DetectionMode.environment 0.9 true true ["phone"] ≤ 0.9 :=
  sessionPostureScore_monotone DetectionMode.environment 0.9 true true ["phone"]
    (by norm_num)

/-- C4: a detected phone caps the fused posture score at 0.4 in both session
modes, and also in the remote vision-analysis adjustment, regardless of the
estimator score and the other flags. -/
theorem phone_caps_posture_score (mode : DetectionMode) (score rawScore : ℚ)
    (phone desk lookingDown : Bool) (items : List String) (hphone : phone = true) :
    sessionPostureScore mode score phone desk items ≤ 0.4
      ∧ visionAdjustedPostureScore rawScore phone lookingDown desk ≤ 0.4 := by
  subst hphone
  constructor
  · cases mode
    · simp [sessionPostureScore, min_le_right]
    · have hpen : (0 : ℚ) ≤ (items.length : ℚ) * 0.15 := by positivity
      simp only [sessionPostureScore]
      norm_num
      split
      · exact max_le (by norm_num) (by linarith [min_le_right score (3 / 10 : ℚ)])
      · linarith [min_le_right score (3 / 10 : ℚ)]
  · have hs1 : min (if rawScore = 0 then (0.7 : ℚ) else rawScore) 0.4 ≤ (0.4 : ℚ) :=
      min_le_right _ _
    have hs2 : (if (lookingDown && desk) = true
        then min (min (if rawScore = 0 then (0.7 : ℚ) else rawScore) 0.4) 0.5
        else min (if rawScore = 0 then (0.7 : ℚ) else rawScore) 0.4) ≤ (0.4 : ℚ) := by
      cases lookingDown && desk
      · simp
      · simp
    simp only [visionAdjustedPostureScore, if_pos rfl]
    exact max_le (by norm_num) (le_trans (min_le_right _ _) hs2)

/-- Witness for `phone_caps_posture_score`: estimator score 0.9 with a phone
detected is capped at 0.4. -/
theorem phone_caps_posture_score_witness :
    sessionPostureScore DetectionMode.posture 0.9 true false [] ≤ 0.4
      ∧ visionAdjustedPostureScore 0.9 true false false ≤ 0.4 :=
  phone_caps_posture_score DetectionMode.posture 0.9 0.9 true false false [] rfl

/-- C5: the fused distraction flag is the pure function of mode and detector
outputs stated in the spec: posture mode is estimator OR phone, environment
mode is phone OR clutter OR more than two distracting items. -/
theorem sessionIsDistracted_pure (mode : DetectionMode) (est phone desk : Bool)
    (items : List String) :
    sessionIsDistracted mode est phone desk items
      = specIsDistracted mode est phone desk items := by
  cases mode <;> rfl

end Flowstate

namespace Flowstate

/-! ## Object/distraction detector (`useYoloDetection.ts`) -/

/-- Confidence threshold applied to detections before label matching. -/
def CONFIDENCE_THRESHOLD : ℚ := 0.3

/-- One object-detection result: a label and a confidence score (the bounding
box plays no role in the distraction flags). -/
structure Detection where
  label : String
  score : ℚ
deriving DecidableEq

/-- Labels that indicate a phone. -/
def PHONE_LABELS : List String := ["cell phone", "mobile phone", "phone", "remote"]

/-- Labels that indicate desk clutter. -/
def CLUTTER_LABELS : List String :=
  ["pizza", "donut", "cake", "sandwich", "hot dog", "apple", "orange", "banana",
   "cup", "bottle", "wine glass", "bowl", "fork", "knife", "spoon"]

/-- The strong food labels that alone mark the desk as cluttered. -/
def STRONG_FOOD_LABELS : List String := ["pizza", "donut", "cake", "sandwich"]

/-- Substring check on character lists: JS `hay.includes(needle)`. -/
def listIncludes : List Char → List Char → Bool
  | needle, [] => needle.isEmpty
  | needle, hay@(_ :: rest) => needle.isPrefixOf hay || listIncludes needle rest

/-- JS `hay.includes(sub)`. -/
def strIncludes (hay sub : String) : Bool := listIncludes sub.toList hay.toList

/-- JS `String.prototype.toLowerCase` restricted to the character-wise case
mapping. -/
def toLowerString (s : String) : String := ⟨s.toList.map Char.toLower⟩

/-- The detected labels that `detectObjects` folds into the flags: every
result label lowercased, filtered by the confidence threshold. -/
def detectedLabels (results : List Detection) : List String :=
  ((results.map (fun r => { r with label := toLowerString r.label })).filter
      (fun r => decide (CONFIDENCE_THRESHOLD ≤ r.score))).map (fun r => r.label)

/-- The sub-list of detected labels matching the clutter category
(`clutterItems` in `detectObjects`), kept with multiplicity as in the source. -/
def clutterItemsOf (labels : List String) : List String :=
  labels.filter (fun label => CLUTTER_LABELS.any (fun c => strIncludes label c))

/-- The clutter flag computed from the detected labels: at least two
clutter-category matches, or any strong food label. -/
def deskClutteredOf (labels : List String) : Bool :=
  decide (2 ≤ (clutterItemsOf labels).length)
    || labels.any (fun label => STRONG_FOOD_LABELS.any (fun f => strIncludes label f))

/-- The clutter-category matches of a frame's detections. -/
def clutterItems (results : List Detection) : List String :=
  clutterItemsOf (detectedLabels results)

/-- Embedding of the `deskCluttered` computation of `detectObjects`. -/
def deskCluttered (results : List Detection) : Bool :=
  deskClutteredOf (detectedLabels results)

/-- Formalisation of the claim wording for `deskCluttered`: two or more
DISTINCT clutter-category labels, or any strong food label, among the
detections at or above the confidence threshold. -/
def specDeskClutteredDistinct (results : List Detection) : Bool :=
  decide (2 ≤ ((clutterItems results).dedup).length)
    || (detectedLabels results).any (fun label => STRONG_FOOD_LABELS.any (fun f => strIncludes label f))

/-- Formalisation of the amended wording: two or more clutter-category
detections counted WITH multiplicity, or any strong food label. -/
def specDeskClutteredMulti (results : List Detection) : Bool :=
  decide (2 ≤ ((detectedLabels results).filter
      (fun label => CLUTTER_LABELS.any (fun c => strIncludes label c))).length)
    || (detectedLabels results).any (fun label => STRONG_FOOD_LABELS.any (fun f => strIncludes label f))

/-- A frame with two separate cups, both above the confidence threshold. -/
def twoCupsFrame : List Detection := [⟨"cup", 0.5⟩, ⟨"cup", 0.5⟩]

/-- C7 counterexample: two detections of the same clutter label make the code
report clutter, but only one distinct clutter-category label is present and no
strong food item — the claim's reading of the condition disagrees with the
code on this frame. -/
theorem deskCluttered_distinct_counterexample :
    deskCluttered twoCupsFrame = true ∧ specDeskClutteredDistinct twoCupsFrame = false := by
  have hlabels : detectedLabels twoCupsFrame = ["cup", "cup"] := by
    have hcmp : decide (CONFIDENCE_THRESHOLD ≤ (0.5 : ℚ)) = true := by
      rw [decide_eq_true_eq]
      norm_num [CONFIDENCE_THRESHOLD]
    simp only [detectedLabels, twoCupsFrame, List.map, List.filter, hcmp]
    decide
  constructor
  · rw [deskCluttered, hlabels]
    decide
  · rw [specDeskClutteredDistinct, clutterItems, hlabels]
    decide

/-- C7 (amended): `deskCluttered` is true exactly when at least two detected
labels match the clutter category counted with multiplicity, or any strong
food label is present. -/
theorem deskCluttered_spec_amended (results : List Detection) :
    deskCluttered results = specDeskClutteredMulti results := rfl

end Flowstate

namespace Flowstate

/-! ## Nudge generator (`useNudgeGenerator`) -/

/-- The distracted-tone static fallback sentence. -/
def FALLBACK_DISTRACTED : String :=
  "It looks like your posture dipped a bit—want to reset comfortably before continuing?"

/-- The focused-tone static fallback sentence. -/
def FALLBACK_FOCUSED : String :=
  "Nice focus so far. Staying relaxed can help you keep this momentum."

/-- The fallback sentence selected by the current distraction flag
(`distracted ? FALLBACK_MESSAGES.distracted : FALLBACK_MESSAGES.focused`). -/
def fallbackMessage (distracted : Bool) : String :=
  if distracted then FALLBACK_DISTRACTED else FALLBACK_FOCUSED

/-- The possible outcomes of one `generate-nudge` remote call as they reach
the response handling in `generateNudge`: an invoke error, a thrown
exception (network failure), or a response body whose optional `nudge` field
may be absent. -/
inductive NudgeOutcome
  | invokeError
  | thrown
  | ok (nudge : Option String)
deriving DecidableEq

/-- Embedding of the response handling of `generateNudge`: errors and
exceptions select the fallback by the current flag; a truthy `nudge` field is
displayed verbatim; a missing (or empty, hence falsy) field selects the
fallback. -/
def generateNudgeText (distracted : Bool) (outcome : NudgeOutcome) : String :=
  match outcome with
  | .invokeError => fallbackMessage distracted
  | .thrown => fallbackMessage distracted
  | .ok nudgeField =>
      match nudgeField with
      | some n => if n.isEmpty then fallbackMessage distracted else n
      | none => fallbackMessage distracted

/-- The failure cases named by the claim: invoke error, thrown network error,
or a response body without a nudge field. -/
def isFailureOutcome (outcome : NudgeOutcome) : Bool :=
  match outcome with
  | .invokeError => true
  | .thrown => true
  | .ok none => true
  | .ok (some _) => false

/-- C8: on every failure outcome the displayed text is the static fallback
selected by the current distraction flag; it always lies in the two-element
fallback set, and the same flag yields the same sentence on every failure. -/
theorem nudge_fallback_deterministic (d : Bool) (o : NudgeOutcome)
    (h : isFailureOutcome o = true) :
    generateNudgeText d o = fallbackMessage d
      ∧ (generateNudgeText d o = FALLBACK_DISTRACTED
          ∨ generateNudgeText d o = FALLBACK_FOCUSED)
      ∧ ∀ o2, isFailureOutcome o2 = true → generateNudgeText d o2 = generateNudgeText d o := by
  have hfall : ∀ o3, isFailureOutcome o3 = true → generateNudgeText d o3 = fallbackMessage d := by
    intro o3 h3
    match o3 with
    | .invokeError => rfl
    | .thrown => rfl
    | .ok none => rfl
    | .ok (some n) => exact absurd h3 (by simp [isFailureOutcome])
  refine ⟨hfall o h, ?_, ?_⟩
  · rw [hfall o h]
    cases d
    · exact Or.inr rfl
    · exact Or.inl rfl
  · intro o2 h2
    rw [hfall o2 h2, hfall o h]

/-- Witness for `nudge_fallback_deterministic`: a thrown network error while
distracted yields the distracted-tone fallback. -/
theorem nudge_fallback_deterministic_witness :
    generateNudgeText true NudgeOutcome.thrown = fallbackMessage true
      ∧ (generateNudgeText true NudgeOutcome.thrown = FALLBACK_DISTRACTED
          ∨ generateNudgeText true NudgeOutcome.thrown = FALLBACK_FOCUSED)
      ∧ ∀ o2, isFailureOutcome o2 = true
          → generateNudgeText true o2 = generateNudgeText true NudgeOutcome.thrown :=
  nudge_fallback_deterministic true NudgeOutcome.thrown rfl

/-- The state of the nudge-generation effect: the previously observed
distraction value (`prevDistractedRef`), the pending debounce timer with the
value captured by its callback (`debounceTimerRef`), and the list of issued
nudge requests, in order. -/
structure NudgeState where
  prevDistracted : Option Bool
  pendingTimer : Option Bool
  requests : List Bool
deriving DecidableEq

/-- The events that drive the nudge generator: the effect running with a new
`isDistracted` value, and the pending debounce timer firing after its one
second elapses. -/
inductive NudgeEvent
  | observe (isDistracted : Bool)
  | timerFires
deriving DecidableEq

/-- Record one outgoing `generate-nudge` request carrying `b`. -/
def issueRequest (s : NudgeState) (b : Bool) : NudgeState :=
  { s with requests := s.requests ++ [b] }

/-- Embedding of the effect body of `useNudgeGenerator`: on the first observed
value the request is issued immediately; on a changed value the previous
debounce timer is cleared and a fresh 1-second timer capturing the new value
is set; an unchanged value does nothing. When the timer fires, the captured
value is sent. -/
def nudgeStep (s : NudgeState) (e : NudgeEvent) : NudgeState :=
  match e with
  | .observe b =>
      match s.prevDistracted with
      | none => issueRequest { s with prevDistracted := some b } b
      | some prev =>
          if prev ≠ b then
            { s with prevDistracted := some b, pendingTimer := some b }
          else s
  | .timerFires =>
      match s.pendingTimer with
      | some b => issueRequest { s with pendingTimer := none } b
      | none => s

/-- Run a sequence of events against the nudge generator. -/
def nudgeRun (s : NudgeState) (events : List NudgeEvent) : NudgeState :=
  events.foldl nudgeStep s

/-- C2: starting from an acted-upon value `true` with no pending timer, the
transitions true→false→true inside one debounce window issue exactly one
request, carrying the final value `true`; and an observation that differs from
the previous value always restarts the debounce timer with the new value
(last value wins). -/
theorem debounce_true_false_true (s : NudgeState)
    (hprev : s.prevDistracted = some true) (htimer : s.pendingTimer = none) :
    (nudgeRun s [NudgeEvent.observe false, NudgeEvent.observe true,
        NudgeEvent.timerFires]).requests = s.requests ++ [true]
      ∧ ∀ old v : Bool,
          (nudgeStep { s with prevDistracted := some (!v), pendingTimer := some old }
            (NudgeEvent.observe v)).pendingTimer = some v := by
  obtain ⟨prev, timer, reqs⟩ := s
  simp only at hprev htimer
  subst hprev htimer
  constructor
  · rfl
  · intro old v
    cases v <;> rfl

/-- Witness for `debounce_true_false_true`: from the idle distracted state
with no prior requests, the toggle sequence produces exactly the request list
`[true]`. -/
theorem debounce_true_false_true_witness :
    (nudgeRun ⟨some true, none, []⟩ [NudgeEvent.observe false, NudgeEvent.observe true,
        NudgeEvent.timerFires]).requests = [] ++ [true]
      ∧ ∀ old v : Bool,
          (nudgeStep { (⟨some true, none, []⟩ : NudgeState) with
              prevDistracted := some (!v), pendingTimer := some old }
            (NudgeEvent.observe v)).pendingTimer = some v :=
  debounce_true_false_true ⟨some true, none, []⟩ rfl rfl

end Flowstate
